import Mathlib

/-!
Verification development for the AI-orchestration core of the
interview-coder application (`ProcessingHelper.ts`).

Text is modelled as `List Char` (the JS string contents).  The ad hoc
regular expressions of the source are translated into explicit scanning
functions whose behaviour matches the JavaScript regex engine on the
concrete patterns used by the code (leftmost match, greedy/lazy
quantifiers, the `/i` flag as ASCII case folding, `\w` as ASCII word
characters, `\s` as whitespace).  The orchestrator is modelled as a
state-passing function emitting a trace of externally visible actions.
-/

namespace InterviewCoder

/-- Shorthand turning a Lean string literal into the `List Char` text model. -/
def str (s : String) : List Char := s.data

/-- The backtick character (code-fence delimiter). -/
def btick : Char := Char.ofNat 96

/-- The bullet character `•` used by the thought-list patterns. -/
def bulletDot : Char := Char.ofNat 8226

/-- Model of the JavaScript `\s` class on the ASCII range (space, tab,
newline, carriage return, vertical tab, form feed). -/
def isSpaceJS (c : Char) : Bool :=
  c = ' ' || c = '\t' || c = '\n' || c = '\r' || c = Char.ofNat 11 || c = Char.ofNat 12

/-- Model of the JavaScript `\w` class: ASCII letters, digits, underscore. -/
def isWordCharJS (c : Char) : Bool :=
  c.isAlpha || c.isDigit || c = '_'

/-- ASCII letter test, modelling the class `[a-zA-Z]` (and `[A-Z]` under
the `/i` flag, which folds case). -/
def isAsciiLetter (c : Char) : Bool :=
  c.isAlpha

/-- Model of JavaScript `String.prototype.trim`: drop whitespace from both ends. -/
def trimJS (l : List Char) : List Char :=
  ((l.dropWhile isSpaceJS).reverse.dropWhile isSpaceJS).reverse

/-- Case-insensitive character equality (ASCII fold), modelling the `/i` flag. -/
def eqCI (a b : Char) : Bool :=
  a.toLower = b.toLower

/-- Case-insensitive "starts with" for the `/i`-flagged literal searches. -/
def startsWithCI : List Char → List Char → Bool
  | [], _ => true
  | _ :: _, [] => false
  | p :: ps, c :: cs => eqCI p c && startsWithCI ps cs

/-- Substring containment, modelling `String.prototype.includes`. -/
def containsSub (pat : List Char) : List Char → Bool
  | [] => pat.isEmpty
  | l@(_ :: r) => pat.isPrefixOf l || containsSub pat r

/-- Index of the first occurrence of `pat` (as a contiguous sublist), if any. -/
def findSubIdx (pat : List Char) : List Char → Option Nat
  | [] => if pat.isEmpty then some 0 else none
  | l@(_ :: r) =>
    if pat.isPrefixOf l then some 0
    else match findSubIdx pat r with
      | some n => some (n + 1)
      | none => none

/-- Model of `s.replace(pat, "")` for a plain (non-regex) pattern: remove the
first occurrence of `pat`, or return the text unchanged when absent. -/
def removeFirstOcc (pat : List Char) : List Char → List Char
  | [] => []
  | l@(c :: r) =>
    if pat.isPrefixOf l then l.drop pat.length
    else c :: removeFirstOcc pat r

/-- The three-backtick fence delimiter. -/
def fenceTok : List Char := [btick, btick, btick]

/-- Model of `content.replace(/```json|```/g, "")` (line 395): delete every
occurrence, trying the longer alternative first at each position. -/
def stripJsonFences : Nat → List Char → List Char
  | 0, l => l
  | _ + 1, [] => []
  | fuel + 1, l@(c :: r) =>
    if (fenceTok ++ str "json").isPrefixOf l then stripJsonFences fuel (l.drop 7)
    else if fenceTok.isPrefixOf l then stripJsonFences fuel (l.drop 3)
    else c :: stripJsonFences fuel r

/-- Split on newline characters, modelling `String.prototype.split("\n")`. -/
def splitOnNl : List Char → List (List Char)
  | [] => [[]]
  | c :: r =>
    if c = '\n' then [] :: splitOnNl r
    else match splitOnNl r with
      | h :: t => (c :: h) :: t
      | [] => [[c]]

/-! ### Code-fence extraction

The solution parser uses the pattern `/```(?:\w+)?\s*([\s\S]*?)```/`
(`ProcessingHelper.generateSolutionsHelper`, line 497): an opening triple
backtick, an optional greedy word-character run (the language tag), greedy
whitespace, then a lazy capture up to the next triple backtick.  Because
`\w` and `\s` never match a backtick, the engine never needs to backtrack
into the tag or whitespace run, so the capture is exactly the text from
after the greedy runs up to the first following occurrence of three
backticks. -/

/-- Try to match the fence pattern anchored at the head of `l`; return the
captured group (the text strictly between the greedy tag/whitespace runs
and the closing fence). -/
def fenceCaptureAt (l : List Char) : Option (List Char) :=
  if fenceTok.isPrefixOf l then
    let r1 := l.drop 3
    let r2 := r1.dropWhile isWordCharJS
    let r3 := r2.dropWhile isSpaceJS
    match findSubIdx fenceTok r3 with
    | some j => some (r3.take j)
    | none => none
  else none

/-- Leftmost match of the solution code-fence pattern: the captured group
of the first position where the whole pattern matches. -/
def firstFence : List Char → Option (List Char)
  | [] => none
  | l@(_ :: rest) =>
    match fenceCaptureAt l with
    | some cap => some cap
    | none => firstFence rest

/-- Model of the code extraction at line 498:
`codeMatch ? codeMatch[1].trim() : responseContent`.  Note that the
no-fence fallback returns the raw text unmodified (no trim). -/
def extractCode (content : List Char) : List Char :=
  match firstFence content with
  | some cap => trimJS cap
  | none => content

/-! ### Big-O notation token

Pattern `/O\([^)]+\)/i` (lines 530, 533, 545, 548): `O` or `o`, an opening
parenthesis, one or more non-`)` characters (greedy, hence exactly up to
the first closing parenthesis), then `)`. -/

/-- Try to match the Big-O pattern at the head of the text. -/
def bigOAt (l : List Char) : Option (List Char) :=
  match l with
  | c1 :: c2 :: rest =>
    if (c1 = 'O' || c1 = 'o') && c2 = '(' then
      let inner := rest.takeWhile (· ≠ ')')
      if inner.isEmpty then none
      else if (rest.drop inner.length).head? = some ')' then
        some (c1 :: c2 :: inner ++ [')'])
      else none
    else none
  | _ => none

/-- Leftmost match of the Big-O pattern, returning the matched text. -/
def firstBigO : List Char → Option (List Char)
  | [] => none
  | l@(_ :: rest) =>
    match bigOAt l with
    | some m => some m
    | none => firstBigO rest

/-- Whether the text contains a Big-O notation token
(`timeComplexity.match(/O\([^)]+\)/i)` used as a boolean). -/
def hasBigO (l : List Char) : Bool :=
  (firstBigO l).isSome

/-- Model of the complexity normalisation applied to a captured
time/space-complexity span (lines 528-539 and 543-555, identical logic):
trim the capture; if it lacks a Big-O token, prefix the default
`"O(n) - "`; if it has one but contains neither a dash nor the word
`because`, reformat to `"<token> - <remainder>"` where the remainder is
the capture with the first occurrence of the token removed, trimmed. -/
def formatComplexity (raw : List Char) : List Char :=
  let t := trimJS raw
  if !hasBigO t then str "O(n) - " ++ t
  else if !containsSub (str "-") t && !containsSub (str "because") t then
    match firstBigO t with
    | some tok => tok ++ str " - " ++ trimJS (removeFirstOcc tok t)
    | none => t
  else t

/-! ### Complexity-span capture

Time pattern (line 521):
`/Time complexity:?\s*([^\n]+(?:\n[^\n]+)*?)(?=\n\s*(?:Space complexity|$))/i`;
space pattern (line 522) is the same with heading `Space complexity` and
lookahead `(?=\n\s*(?:[A-Z]|$))`.  The capture is a maximal first line
followed by a lazy sequence of further non-empty lines, stopped at the
first line boundary whose lookahead holds.  Inside the lookahead the
`\s*` run cannot end early (neither a letter nor `S` is whitespace), so
the lookahead reduces to: a newline whose remaining text, after dropping
whitespace, is empty or starts with the target. -/

/-- Lookahead of the time pattern: `(?=\n\s*(?:Space complexity|$))`. -/
def timeLookahead : List Char → Bool
  | '\n' :: r =>
    let r2 := r.dropWhile isSpaceJS
    r2.isEmpty || startsWithCI (str "space complexity") r2
  | _ => false

/-- Lookahead of the space pattern: `(?=\n\s*(?:[A-Z]|$))` (the class
`[A-Z]` matches both cases under the `/i` flag). -/
def spaceLookahead : List Char → Bool
  | '\n' :: r =>
    match r.dropWhile isSpaceJS with
    | [] => true
    | c :: _ => isAsciiLetter c
  | _ => false

/-- Lazy extension of the captured span line by line: stop as soon as the
lookahead holds at the current boundary, otherwise append the next
newline-plus-non-empty-line repetition. -/
def complexitySpanLoop (look : List Char → Bool) :
    Nat → List Char → List Char → Option (List Char)
  | 0, _, _ => none
  | fuel + 1, acc, rest =>
    if look rest then some acc
    else match rest with
      | '\n' :: r2 =>
        let line := r2.takeWhile (· ≠ '\n')
        if line.isEmpty then none
        else complexitySpanLoop look fuel (acc ++ '\n' :: line) (r2.drop line.length)
      | _ => none

/-- Attempt the capture group starting exactly at `q`: the first line must
be non-empty, then the lazy loop runs. -/
def complexityCaptureAt (look : List Char → Bool) (q : List Char) : Option (List Char) :=
  let line := q.takeWhile (· ≠ '\n')
  if line.isEmpty then none
  else complexitySpanLoop look (q.length + 1) line (q.drop line.length)

/-- Greedy `\s*` with backtracking: try consuming `i` whitespace characters
for `i` from the maximal run length down to zero. -/
def complexityWsAttempt (look : List Char → Bool) (r : List Char) :
    Nat → Option (List Char)
  | 0 => complexityCaptureAt look r
  | i + 1 =>
    match complexityCaptureAt look (r.drop (i + 1)) with
    | some c => some c
    | none => complexityWsAttempt look r i

/-- Matching after the heading: optional colon (greedy, so with the colon
first when present, else without), then the `\s*` attempts. -/
def complexityTail (look : List Char → Bool) (r : List Char) : Option (List Char) :=
  let ws := fun (l : List Char) =>
    complexityWsAttempt look l (l.takeWhile isSpaceJS).length
  match r with
  | ':' :: r2 =>
    match ws r2 with
    | some c => some c
    | none => ws r
  | _ => ws r

/-- Leftmost whole-pattern match: scan for a case-insensitive heading
occurrence whose tail admits a capture. -/
def findComplexityCapture (heading : List Char) (look : List Char → Bool) :
    List Char → Option (List Char)
  | [] => none
  | l@(_ :: rest) =>
    if startsWithCI heading l then
      match complexityTail look (l.drop heading.length) with
      | some c => some c
      | none => findComplexityCapture heading look rest
    else findComplexityCapture heading look rest

/-- Canned fallback used when the time-complexity label is absent (line 524). -/
def defaultTimeComplexity : List Char :=
  str "O(n) - Linear time complexity because we only iterate through the array once. Each element is processed exactly one time, and the hashmap lookups are O(1) operations."

/-- Canned fallback used when the space-complexity label is absent (line 525). -/
def defaultSpaceComplexity : List Char :=
  str "O(n) - Linear space complexity because we store elements in the hashmap. In the worst case, we might need to store all elements before finding the solution pair."

/-! ### Rationale ("thoughts") extraction

Heading pattern (line 501):
`/(?:Thoughts:|Key Insights:|Reasoning:|Approach:)([\s\S]*?)(?:Time complexity:|$)/i`.
The lazy capture runs from just after the leftmost heading occurrence up
to the first case-insensitive occurrence of `Time complexity:` or the end
of the text. -/

/-- The four rationale headings, tried in the alternation order of the
pattern (their first letters differ, so at most one matches at a
position). -/
def thoughtHeadings : List (List Char) :=
  [str "Thoughts:", str "Key Insights:", str "Reasoning:", str "Approach:"]

/-- Length of the heading matching case-insensitively at the head of `l`, if any. -/
def matchThoughtHeading (l : List Char) : Option Nat :=
  match thoughtHeadings.find? (fun h => startsWithCI h l) with
  | some h => some h.length
  | none => none

/-- Lazy capture up to the first case-insensitive `Time complexity:` or end. -/
def captureUntilTime : List Char → List Char
  | [] => []
  | l@(c :: r) =>
    if startsWithCI (str "time complexity:") l then []
    else c :: captureUntilTime r

/-- Leftmost rationale-heading match: the capture of the thoughts span. -/
def findThoughtsSpan : List Char → Option (List Char)
  | [] => none
  | l@(_ :: rest) =>
    match matchThoughtHeading l with
    | some n => some (captureUntilTime (l.drop n))
    | none => findThoughtsSpan rest

/-! ### Bullet/numbered list items

Solution pattern (line 507): `/(?:^|\n)\s*(?:[-*•]|\d+\.)\s*(.*)/g`, used
with `String.match`, which under the `g` flag yields the list of full
match texts.  The `\s*` runs are greedy and never give characters back
(no marker character is whitespace), `(.*)` takes the rest of the line. -/

/-- List-item marker: one of `-`, `*`, `•`, or a digit run followed by `.`.
Returns the marker text and the remaining input. -/
def parseMarker (l : List Char) : Option (List Char × List Char) :=
  match l with
  | c :: r =>
    if c = '-' || c = '*' || c = bulletDot then some ([c], r)
    else
      let ds := l.takeWhile Char.isDigit
      if ds.isEmpty then none
      else match l.drop ds.length with
        | '.' :: r2 => some (ds ++ ['.'], r2)
        | _ => none
  | [] => none

/-- Core of the solution bullet pattern after the `(?:^|\n)` anchor:
`\s*(?:[-*•]|\d+\.)\s*(.*)`.  Returns the consumed text and the rest. -/
def bulletCore (l : List Char) : Option (List Char × List Char) :=
  let ws := l.takeWhile isSpaceJS
  let r1 := l.drop ws.length
  match parseMarker r1 with
  | none => none
  | some (mk, r2) =>
    let ws2 := r2.takeWhile isSpaceJS
    let r3 := r2.drop ws2.length
    let line := r3.takeWhile (· ≠ '\n')
    some (ws ++ mk ++ ws2 ++ line, r3.drop line.length)

/-- Scan for newline-anchored bullet matches, resuming after each match
(the `lastIndex` behaviour of a global regex). -/
def bulletScan : Nat → List Char → List (List Char)
  | 0, _ => []
  | _ + 1, [] => []
  | fuel + 1, '\n' :: r =>
    (match bulletCore r with
     | some (m, r2) => ('\n' :: m) :: bulletScan fuel r2
     | none => bulletScan fuel r)
  | fuel + 1, _ :: r => bulletScan fuel r

/-- All full matches of the global solution bullet pattern: a possible
start-anchored match, then the newline-anchored scan. -/
def bulletFullMatches (s : List Char) : List (List Char) :=
  match bulletCore s with
  | some (m, r) => m :: bulletScan r.length r
  | none =>
    match s with
    | [] => []
    | _ :: r => bulletScan r.length r

/-- Model of `point.replace(/^\s*(?:[-*•]|\d+\.)\s*/, "")` (line 510):
strip the leading whitespace, marker and following whitespace; leave the
text unchanged when the anchored pattern does not match. -/
def stripBulletLead (m : List Char) : List Char :=
  let r1 := m.dropWhile isSpaceJS
  match parseMarker r1 with
  | some (_, r2) => r2.dropWhile isSpaceJS
  | none => m

/-- Default rationale entry (line 559). -/
def defaultThought : List Char := str "Solution approach based on efficiency and readability"

/-- The rationale list before the final non-empty fallback (lines 501-518):
empty when no heading matched or the capture was empty (falsy); otherwise
the cleaned bullet items when any bullet matched, else the trimmed
non-empty lines of the span. -/
def rationaleBase (content : List Char) : List (List Char) :=
  match findThoughtsSpan content with
  | none => []
  | some [] => []
  | some span =>
    let bullets := bulletFullMatches span
    if bullets.isEmpty then
      ((splitOnNl span).map trimJS).filter (fun l => !l.isEmpty)
    else
      (bullets.map (fun p => trimJS (stripBulletLead p))).filter (fun l => !l.isEmpty)

/-- Final thoughts list (line 559): the base list, or the single default
entry when the base is empty. -/
def extractThoughts (content : List Char) : List (List Char) :=
  if (rationaleBase content).isEmpty then [defaultThought] else rationaleBase content

/-! ### Assembled solution parser -/

/-- Structured solution payload (`ISolutionPayload`). -/
structure SolutionPayload where
  code : List Char
  thoughts : List (List Char)
  time_complexity : List Char
  space_complexity : List Char
deriving DecidableEq, Repr

/-- Model of the response parsing in `generateSolutionsHelper`
(lines 497-562): code from the first fenced block (or the raw text),
thoughts from the rationale span, complexities from the labeled spans
normalised by `formatComplexity`, with canned defaults when a label is
absent. -/
def parseSolutionResponse (content : List Char) : SolutionPayload :=
  { code := extractCode content
    thoughts := extractThoughts content
    time_complexity :=
      match findComplexityCapture (str "time complexity") timeLookahead content with
      | some cap => formatComplexity cap
      | none => defaultTimeComplexity
    space_complexity :=
      match findComplexityCapture (str "space complexity") spaceLookahead content with
      | some cap => formatComplexity cap
      | none => defaultSpaceComplexity }

/-! ### Debug-response parsing

`processExtraScreenshotsHelper`, lines 630-657.  The debug code fence
pattern `/```(?:[a-zA-Z]+)?([\s\S]*?)```/` (line 631) differs from the
solution one: the optional tag is letters only and there is no whitespace
run, so the capture starts immediately after the tag. -/

/-- Debug fence match anchored at the head of `l`. -/
def debugFenceCaptureAt (l : List Char) : Option (List Char) :=
  if fenceTok.isPrefixOf l then
    let r1 := l.drop 3
    let r2 := r1.dropWhile isAsciiLetter
    match findSubIdx fenceTok r2 with
    | some j => some (r2.take j)
    | none => none
  else none

/-- Leftmost debug fence match. -/
def firstDebugFence : List Char → Option (List Char)
  | [] => none
  | l@(_ :: rest) =>
    match debugFenceCaptureAt l with
    | some cap => some cap
    | none => firstDebugFence rest

/-- Code extracted for the debug payload (lines 630-634): the trimmed
capture when a fence matched with a non-empty (truthy) capture, else the
literal fallback. -/
def extractDebugCode (content : List Char) : List Char :=
  match firstDebugFence content with
  | some cap => if cap.isEmpty then str "// Debug mode - see analysis below" else trimJS cap
  | none => str "// Debug mode - see analysis below"

/-- Replace the leftmost case-insensitive occurrence of any of the
alternatives (tried in order at each position) by `repl`; identity when
none occurs.  Models one `.replace(/a|b|c/i, repl)` step. -/
def replaceFirstAltCI (alts : List (List Char)) (repl : List Char) :
    List Char → List Char
  | [] => []
  | l@(c :: r) =>
    match alts.find? (fun a => startsWithCI a l) with
    | some a => repl ++ l.drop a.length
    | none => c :: replaceFirstAltCI alts repl r

/-- The four chained heading-insertion replaces of lines 639-643, applied
left to right. -/
def insertDebugHeadings (l : List Char) : List Char :=
  replaceFirstAltCI [str "explanation", str "detailed analysis"] (str "## Explanation")
    (replaceFirstAltCI [str "optimizations", str "performance improvements"] (str "## Optimizations")
      (replaceFirstAltCI [str "code improvements", str "improvements", str "suggested changes"] (str "## Code Improvements")
        (replaceFirstAltCI [str "issues identified", str "problems found", str "bugs found"] (str "## Issues Identified") l)))

/-- Formatted debug analysis (lines 636-644): headings are inserted only
when the text contains neither `"# "` nor `"## "`. -/
def formatDebugContent (content : List Char) : List Char :=
  if !containsSub (str "# ") content && !containsSub (str "## ") content then
    insertDebugHeadings content
  else content

/-- Core of the debug bullet pattern `(?:^|\n)[ ]*(?:[-*•]|\d+\.)[ ]+([^\n]+)`
(line 646) after the anchor: space runs are literal spaces only, at least
one space must follow the marker, and the captured line must be non-empty
(when the marker is followed by spaces reaching the end of the line, the
`[ ]+` run gives one space back to `[^\n]+`, which needs at least two
spaces). -/
def debugBulletCore (l : List Char) : Option (List Char × List Char) :=
  let sp := l.takeWhile (· = ' ')
  let r1 := l.drop sp.length
  match parseMarker r1 with
  | none => none
  | some (mk, r2) =>
    let sp2 := r2.takeWhile (· = ' ')
    let r3 := r2.drop sp2.length
    let line := r3.takeWhile (· ≠ '\n')
    if sp2.isEmpty then none
    else if !line.isEmpty then some (sp ++ mk ++ sp2 ++ line, r3.drop line.length)
    else if 2 ≤ sp2.length then some (sp ++ mk ++ sp2, r3)
    else none

/-- Newline-anchored scan for the global debug bullet pattern. -/
def debugBulletScan : Nat → List Char → List (List Char)
  | 0, _ => []
  | _ + 1, [] => []
  | fuel + 1, '\n' :: r =>
    (match debugBulletCore r with
     | some (m, r2) => ('\n' :: m) :: debugBulletScan fuel r2
     | none => debugBulletScan fuel r)
  | fuel + 1, _ :: r => debugBulletScan fuel r

/-- All full matches of the debug bullet pattern. -/
def debugBulletMatches (s : List Char) : List (List Char) :=
  match debugBulletCore s with
  | some (m, r) => m :: debugBulletScan r.length r
  | none =>
    match s with
    | [] => []
    | _ :: r => debugBulletScan r.length r

/-- Model of `point.replace(/^[ ]*(?:[-*•]|\d+\.)[ ]+/, "")` (line 648): the
anchored pattern requires leading literal spaces only, so a match that
begins with its newline anchor is left unchanged. -/
def stripDebugBulletLead (m : List Char) : List Char :=
  let r1 := m.dropWhile (· = ' ')
  match parseMarker r1 with
  | some (_, r2) =>
    if (r2.takeWhile (· = ' ')).isEmpty then m
    else r2.dropWhile (· = ' ')
  | none => m

/-- Structured debug payload (`IDebugPayload`). -/
structure DebugPayload where
  code : List Char
  debug_analysis : List Char
  thoughts : List (List Char)
  time_complexity : List Char
  space_complexity : List Char
deriving DecidableEq, Repr

/-- Model of the debug response structuring (lines 630-657): extracted
code, heading-normalised analysis, at most five cleaned bullet items
(default single sentence when no bullet matched), and the two literal
`"N/A - Debug mode"` complexity fields. -/
def parseDebugResponse (content : List Char) : DebugPayload :=
  let formatted := formatDebugContent content
  let bullets := debugBulletMatches formatted
  { code := extractDebugCode content
    debug_analysis := formatted
    thoughts :=
      if bullets.isEmpty then [str "Debug analysis based on your screenshots"]
      else (bullets.map (fun p => trimJS (stripDebugBulletLead p))).take 5
    time_complexity := str "N/A - Debug mode"
    space_complexity := str "N/A - Debug mode" }

/-! ### Provider adapter response handling

`callAIModel`, lines 693-818.  Each adapter extracts the text of the first
choice/candidate/content block.  Indexing an empty array yields
`undefined` in JavaScript, so the subsequent property access throws a
`TypeError`, which the surrounding `catch` converts to a failure carrying
the thrown message (`error.message`) — not the `"No response content"`
failure, which is produced only when the first element exists but its
text field is `null`/absent/empty (falsy). -/

/-- Result of one adapter call as seen by the orchestrator. -/
inductive CallResult where
  | success (content : List Char)
  | failure (error : List Char)
deriving DecidableEq, Repr

/-- Stand-in for the message of the `TypeError` thrown when a property of
`undefined` is accessed (the exact JS runtime wording is irrelevant; it
is never the string `"No response content"`). -/
def typeErrorMsg : List Char := str "Cannot read properties of undefined"

/-- Shared final step of all three adapters:
`content ? { success: true, content } : { success: false, error: "No response content" }`. -/
def contentToResult (content : Option (List Char)) : CallResult :=
  match content with
  | none => .failure (str "No response content")
  | some [] => .failure (str "No response content")
  | some c => .success c

/-- OpenAI chat-completion response shape (`choices[0].message.content`). -/
structure OpenAIMessage where
  content : Option (List Char)
deriving DecidableEq, Repr

/-- One OpenAI choice. -/
structure OpenAIChoice where
  message : OpenAIMessage
deriving DecidableEq, Repr

/-- OpenAI response: a list of choices. -/
structure OpenAIResponse where
  choices : List OpenAIChoice
deriving DecidableEq, Repr

/-- OpenAI adapter content handling (lines 726-727 plus the catch). -/
def openaiExtract (r : OpenAIResponse) : CallResult :=
  match r.choices with
  | [] => .failure typeErrorMsg
  | ch :: _ => contentToResult ch.message.content

/-- One Gemini part (`parts[0].text`, possibly absent). -/
structure GeminiPart where
  text : Option (List Char)
deriving DecidableEq, Repr

/-- Gemini candidate content. -/
structure GeminiContent where
  parts : List GeminiPart
deriving DecidableEq, Repr

/-- One Gemini candidate. -/
structure GeminiCandidate where
  content : GeminiContent
deriving DecidableEq, Repr

/-- Gemini REST response: a list of candidates. -/
structure GeminiResponse where
  candidates : List GeminiCandidate
deriving DecidableEq, Repr

/-- Gemini adapter content handling (lines 762-764 plus the catch):
`candidates[0].content.parts[0].text`. -/
def geminiExtract (r : GeminiResponse) : CallResult :=
  match r.candidates with
  | [] => .failure typeErrorMsg
  | cand :: _ =>
    match cand.content.parts with
    | [] => .failure typeErrorMsg
    | p :: _ => contentToResult p.text

/-- One Anthropic content block; `text` is absent when the block is not a
text block (the source casts unconditionally). -/
structure AnthropicBlock where
  text : Option (List Char)
deriving DecidableEq, Repr

/-- Anthropic messages-API response: a list of content blocks. -/
structure AnthropicResponse where
  content : List AnthropicBlock
deriving DecidableEq, Repr

/-- Anthropic adapter content handling (lines 788-789 plus the catch):
`(response.content[0] as { type: "text", text: string }).text`. -/
def anthropicExtract (r : AnthropicResponse) : CallResult :=
  match r.content with
  | [] => .failure typeErrorMsg
  | b :: _ => contentToResult b.text

/-! ### Orchestrator model

`processScreenshots`, its two helpers and `cancelOngoingRequests`
(lines 157-373, 375-440, 442-565, 567-660, 839-862).  The orchestrator is
modelled as a function from the session state and an environment (the
window, configuration, file system and provider outcomes it consults) to
a trace of externally visible actions plus the updated state.  Provider
round trips are recorded as `networkCall` actions; their outcomes,
including the catch clause mapping thrown vendor errors to messages, are
supplied by the environment. -/

/-- The two views of the UI (`deps.getView`/`setView`). -/
inductive View where
  | queue
  | solutions
deriving DecidableEq, Repr

/-- Extracted problem description (the parsed JSON object). -/
structure ProblemInfo where
  problem_statement : List Char
  constraints : List Char
  example_input : List Char
  example_output : List Char
deriving DecidableEq, Repr

/-- The `PROCESSING_EVENTS` sent to the renderer. -/
inductive PEvent where
  | initialStart
  | noScreenshots
  | apiKeyInvalid
  | problemExtracted (info : ProblemInfo)
  | solutionSuccess (payload : SolutionPayload)
  | initialSolutionError (msg : List Char)
  | debugStart
  | debugSuccess
  | debugError (msg : List Char)
deriving DecidableEq, Repr

/-- Externally visible actions, in program order. -/
inductive Action where
  | emit (e : PEvent)
  | status (msg : List Char) (progress : Nat)
  | setView (v : View)
  | setProblemInfo (info : Option ProblemInfo)
  | setHasDebugged (b : Bool)
  | clearExtraQueue
  | networkCall
  | abortMainFlow
  | abortExtraFlow
deriving DecidableEq, Repr

/-- The mutable session state touched by the orchestrator. -/
structure AppState where
  view : View
  problemInfo : Option ProblemInfo
  hasDebugged : Bool
  screenshotQueue : List String
  extraScreenshotQueue : List String
  mainAbort : Bool
  extraAbort : Bool
deriving DecidableEq, Repr

/-- Configured provider (`config.apiProvider`). -/
inductive Provider where
  | openai
  | gemini
  | anthropic
deriving DecidableEq, Repr

/-- Environment consulted by a flow: window liveness, configuration and
client validity, file-system answers, the abstract `JSON.parse` builtin,
and the outcome of each stage's provider round trip (the body of the
`try` in `callAIModel`, with the catch already applied). -/
structure Env where
  windowAlive : Bool
  clientValid : Bool
  provider : Provider
  fileExists : String → Bool
  readOk : String → Bool
  jsonParse : List Char → Option ProblemInfo
  extractionOutcome : CallResult
  solutionOutcome : CallResult
  debugOutcome : CallResult

/-- `sendProcessingEvent` (lines 828-837): a no-op when the window is gone. -/
def sendActs (env : Env) (e : PEvent) : List Action :=
  if env.windowAlive then [Action.emit e] else []

/-- `updateProcessingStatus` (lines 821-826): a no-op when the window is gone. -/
def statusActs (env : Env) (msg : String) (progress : Nat) : List Action :=
  if env.windowAlive then [Action.status (str msg) progress] else []

/-- The message of the not-configured failure returned by `callAIModel`
before any network activity (lines 696, 731, 767). -/
def notConfiguredMsg : Provider → List Char
  | .openai => str "OpenAI API key not configured. Please check your settings."
  | .gemini => str "Gemini API key not configured. Please check your settings."
  | .anthropic => str "Anthropic API key not configured. Please check your settings."

/-- The three request stages of `callAIModel`. -/
inductive Stage where
  | extraction
  | solution
  | debugging
deriving DecidableEq, Repr

/-- The stage-specific progress notification of lines 681-691. -/
def stageStatus (env : Env) : Stage → List Action
  | .extraction => statusActs env "Analyzing problem from screenshots..." 20
  | .solution => statusActs env "Creating optimal solution with detailed explanations..." 60
  | .debugging => statusActs env "Analyzing code and generating debug feedback..." 60

/-- The environment-supplied outcome for a stage. -/
def stageOutcome (env : Env) : Stage → CallResult
  | .extraction => env.extractionOutcome
  | .solution => env.solutionOutcome
  | .debugging => env.debugOutcome

/-- Model of `callAIModel` (lines 662-819): emit the stage progress
notification, then either fail without network activity when the client
for the configured provider is missing, or perform the round trip whose
result the environment supplies. -/
def callAIModel (env : Env) (stage : Stage) : List Action × CallResult :=
  let acts := stageStatus env stage
  if env.clientValid then (acts ++ [Action.networkCall], stageOutcome env stage)
  else (acts, .failure (notConfiguredMsg env.provider))

/-- Result type of the helper flows. -/
inductive HResult (α : Type) where
  | ok (a : α)
  | err (e : List Char)
deriving DecidableEq, Repr

/-- Stand-in for the `SyntaxError` message thrown by `JSON.parse` on
malformed input and surfaced through the helper's catch. -/
def jsonParseErrorMsg : List Char := str "Unexpected token in JSON"

/-- Model of `generateSolutionsHelper` (lines 442-565): fail when no
problem info is stored, otherwise run the solution round trip and parse
its content (an empty content string fails with
`"No response content received"`). -/
def generateSolutionsHelper (env : Env) (st : AppState) :
    List Action × HResult SolutionPayload :=
  match st.problemInfo with
  | none => ([], .err (str "No problem info available"))
  | some _ =>
    let (acts, r) := callAIModel env .solution
    match r with
    | .failure e => (acts, .err e)
    | .success content =>
      if content.isEmpty then (acts, .err (str "No response content received"))
      else (acts, .ok (parseSolutionResponse content))

/-- Model of `processScreenshotsHelper` (lines 375-440): extraction round
trip, fence-stripping and JSON parse of the problem info, commit of the
problem info, `PROBLEM_EXTRACTED`, then the chained solution stage; on
solution success the extra queue is cleared and `SOLUTION_SUCCESS` is
emitted from inside the helper.  A solution failure is rethrown and
caught by the helper's own catch, which returns its message. -/
def processScreenshotsHelper (env : Env) (st : AppState) :
    List Action × AppState × HResult SolutionPayload :=
  let (a1, r1) := callAIModel env .extraction
  match r1 with
  | .failure e => (a1, st, .err e)
  | .success content =>
    let jsonText := trimJS (stripJsonFences content.length content)
    match env.jsonParse jsonText with
    | none => (a1, st, .err jsonParseErrorMsg)
    | some info =>
      let a2 := a1 ++ statusActs env "Problem analyzed successfully. Preparing to generate solution..." 40
        ++ [Action.setProblemInfo (some info)]
      let st1 := { st with problemInfo := some info }
      if env.windowAlive then
        let a3 := a2 ++ [Action.emit (PEvent.problemExtracted info)]
        let (a4, r2) := generateSolutionsHelper env st1
        match r2 with
        | .ok payload =>
          (a3 ++ a4 ++ [Action.clearExtraQueue]
             ++ statusActs env "Solution generated successfully" 100
             ++ [Action.emit (PEvent.solutionSuccess payload)],
           { st1 with extraScreenshotQueue := [] }, .ok payload)
        | .err e =>
          (a3 ++ a4, st1,
           .err (if e.isEmpty then str "Failed to generate solutions" else e))
      else (a2, st1, .err (str "Failed to process screenshots"))

/-- Model of `processExtraScreenshotsHelper` (lines 567-660): fail when no
problem info is stored (before any provider activity), otherwise run the
debugging round trip and structure its content. -/
def processExtraScreenshotsHelper (env : Env) (st : AppState) :
    List Action × HResult DebugPayload :=
  match st.problemInfo with
  | none => ([], .err (str "No problem info available"))
  | some _ =>
    let a0 := statusActs env "Processing debug screenshots..." 30
    let (a1, r) := callAIModel env .debugging
    match r with
    | .failure e => (a0 ++ a1, .err e)
    | .success content =>
      let a2 := a0 ++ a1 ++ statusActs env "Debug analysis complete" 100
      if content.isEmpty then (a2, .err (str "No debug content received"))
      else (a2, .ok (parseDebugResponse content))

/-- The vendor-substring reclassification of lines 250-254. -/
def looksLikeApiKeyError (e : List Char) : Bool :=
  containsSub (str "API Key") e || containsSub (str "OpenAI") e || containsSub (str "Gemini") e

/-- Model of `processScreenshots` (lines 157-373): the client-validity
gate, then either the main-queue flow (queue view) or the debug flow
(solutions view), with the empty/missing-screenshot short circuits, the
abort-handle lifecycle (created at flow start, cleared in `finally`), the
failure classification and the view resets. -/
def processScreenshots (env : Env) (st : AppState) : List Action × AppState :=
  if !env.windowAlive then ([], st)
  else if !env.clientValid then (sendActs env .apiKeyInvalid, st)
  else match st.view with
  | .queue =>
    let a0 := sendActs env .initialStart
    if st.screenshotQueue.isEmpty then (a0 ++ sendActs env .noScreenshots, st)
    else
      let existing := st.screenshotQueue.filter env.fileExists
      if existing.isEmpty then (a0 ++ sendActs env .noScreenshots, st)
      else
        let st1 := { st with mainAbort := true }
        let valid := existing.filter env.readOk
        if valid.isEmpty then
          (a0 ++ sendActs env (.initialSolutionError (str "Failed to load screenshot data"))
             ++ [Action.setView .queue],
           { st1 with view := .queue, mainAbort := false })
        else
          match processScreenshotsHelper env st1 with
          | (aH, stH, .err e) =>
            let evt :=
              if looksLikeApiKeyError e then sendActs env .apiKeyInvalid
              else sendActs env (.initialSolutionError e)
            (a0 ++ aH ++ evt ++ [Action.setView .queue],
             { stH with view := .queue, mainAbort := false })
          | (aH, stH, .ok payload) =>
            (a0 ++ aH ++ sendActs env (.solutionSuccess payload) ++ [Action.setView .solutions],
             { stH with view := .solutions, mainAbort := false })
  | .solutions =>
    if st.extraScreenshotQueue.isEmpty then (sendActs env .noScreenshots, st)
    else
      let existingExtra := st.extraScreenshotQueue.filter env.fileExists
      if existingExtra.isEmpty then (sendActs env .noScreenshots, st)
      else
        let a0 := sendActs env .debugStart
        let st1 := { st with extraAbort := true }
        let allPaths := st.screenshotQueue ++ existingExtra
        let valid := (allPaths.filter env.fileExists).filter env.readOk
        if valid.isEmpty then
          (a0 ++ sendActs env (.debugError (str "Failed to load screenshot data for debugging")),
           { st1 with extraAbort := false })
        else
          match processExtraScreenshotsHelper env st1 with
          | (aH, .ok _) =>
            (a0 ++ aH ++ [Action.setHasDebugged true] ++ sendActs env .debugSuccess,
             { st1 with hasDebugged := true, extraAbort := false })
          | (aH, .err e) =>
            (a0 ++ aH ++ sendActs env (.debugError e),
             { st1 with extraAbort := false })

/-- Model of `cancelOngoingRequests` (lines 839-862): abort whichever
handles are set, reset `hasDebugged`, clear the problem info, and emit
`NO_SCREENSHOTS` only when something was actually aborted and the window
is alive. -/
def cancelOngoingRequests (env : Env) (st : AppState) : List Action × AppState :=
  let wasCancelled := st.mainAbort || st.extraAbort
  let aborts := (if st.mainAbort then [Action.abortMainFlow] else [])
    ++ (if st.extraAbort then [Action.abortExtraFlow] else [])
  let acts := aborts ++ [Action.setHasDebugged false, Action.setProblemInfo none]
  let st1 := { st with mainAbort := false, extraAbort := false,
                       hasDebugged := false, problemInfo := none }
  if wasCancelled && env.windowAlive then
    (acts ++ [Action.emit .noScreenshots], st1)
  else (acts, st1)

/-! ### Trace observations -/

/-- Number of `NO_SCREENSHOTS` emissions in a trace. -/
def countNoScreenshots (tr : List Action) : Nat :=
  (tr.filter fun a => match a with
    | .emit .noScreenshots => true
    | _ => false).length

/-- Number of provider round trips in a trace. -/
def countNetworkCalls (tr : List Action) : Nat :=
  (tr.filter fun a => match a with
    | .networkCall => true
    | _ => false).length

/-- Number of `SOLUTION_SUCCESS` emissions in a trace. -/
def countSolutionSuccess (tr : List Action) : Nat :=
  (tr.filter fun a => match a with
    | .emit (.solutionSuccess _) => true
    | _ => false).length

/-! ### Concrete instances used by witnesses and counterexamples -/

/-- Problem info of the spec's Two Sum scenario. -/
def piW : ProblemInfo :=
  { problem_statement := str "Two Sum"
    constraints := str "n<=1e5"
    example_input := str "[2,7]"
    example_output := str "[0,1]" }

/-- Base environment: live window, valid client, all files exist and read. -/
def envBase : Env :=
  { windowAlive := true
    clientValid := true
    provider := .openai
    fileExists := fun _ => true
    readOk := fun _ => true
    jsonParse := fun l => if l = str "\x7b\x7d" then some piW else none
    extractionOutcome := .success (str "```json\x7b\x7d```")
    solutionOutcome := .success (str "x")
    debugOutcome := .success (str "y") }

/-- Base queue-view state with one screenshot in each queue. -/
def stQueueW : AppState :=
  { view := .queue
    problemInfo := none
    hasDebugged := false
    screenshotQueue := ["a.png"]
    extraScreenshotQueue := ["e.png"]
    mainAbort := false
    extraAbort := false }

/-- State with the main-flow abort handle set (for cancellation). -/
def stAbortW : AppState := { stQueueW with mainAbort := true }

/-- Environment with no screenshot file existing on disk. -/
def envNoFiles : Env := { envBase with fileExists := fun _ => false }

/-- Environment whose extraction round trip fails with a message naming
the Anthropic provider (not matched by the reclassifier). -/
def envAnthropicErr : Env :=
  { envBase with extractionOutcome := .failure (str "Anthropic API error") }

/-- Environment whose extraction round trip fails with a message naming
the OpenAI provider (matched by the reclassifier). -/
def envOpenaiErr : Env :=
  { envBase with extractionOutcome := .failure (str "Invalid OpenAI API key") }

/-- Solutions-view state with stored problem info (debug flow ready). -/
def stDebugW : AppState :=
  { stQueueW with view := .solutions, problemInfo := some piW }

/-! ## Claims -/

/-- A prefix occurrence is in particular a substring occurrence. -/
theorem containsSub_of_isPrefixOf {p l : List Char} (h : p.isPrefixOf l = true) :
    containsSub p l = true := by
  cases l with
  | nil => cases p with
    | nil => rfl
    | cons c r => simp [List.isPrefixOf] at h
  | cons c r => simp [containsSub, h]

/-- C2 counterexample: on the fence-free text `" x "` the extracted code is
the raw text, not its trim, refuting the claim's no-fence clause. -/
theorem c2_counterexample :
    firstFence (str " x ") = none ∧
    extractCode (str " x ") = str " x " ∧
    trimJS (str " x ") = str "x" ∧
    extractCode (str " x ") ≠ trimJS (str " x ") := by
  refine ⟨by decide, by decide, by decide, by decide⟩

/-- C2 (amended): the solution parser's code field is the trimmed capture
of the first fenced block when one matches, and the *unmodified* raw text
(no trim) when no fence matches. -/
theorem c2_code_extraction (s : List Char) :
    (parseSolutionResponse s).code = extractCode s ∧
    (∀ cap, firstFence s = some cap → extractCode s = trimJS cap) ∧
    (firstFence s = none → extractCode s = s) := by
  refine ⟨rfl, ?_, ?_⟩
  · intro cap h
    unfold extractCode
    rw [h]
  · intro h
    unfold extractCode
    rw [h]

/-- C2 witness: both branches of the amended statement at concrete inputs. -/
theorem c2_code_extraction_witness :
    extractCode (str "```\ncode\n```") = trimJS (str "code\n") ∧
    extractCode (str "abc") = str "abc" :=
  ⟨(c2_code_extraction (str "```\ncode\n```")).2.1 (str "code\n") (by decide),
   (c2_code_extraction (str "abc")).2.2 (by decide)⟩

/-- C7: a captured complexity span without a Big-O token is prefixed with
`"O(n) - "` (so the output always contains `"O("`); a span with a token
but neither a dash nor `"because"` is reformatted to
`"<token> - <remainder>"`; and the parser's complexity fields are exactly
the normalisation of the captured spans. -/
theorem c7_complexity_formatting (raw : List Char) :
    (hasBigO (trimJS raw) = false →
      formatComplexity raw = str "O(n) - " ++ trimJS raw ∧
      containsSub (str "O(") (formatComplexity raw) = true) ∧
    (∀ tok, containsSub (str "-") (trimJS raw) = false →
      containsSub (str "because") (trimJS raw) = false →
      firstBigO (trimJS raw) = some tok →
      formatComplexity raw = tok ++ str " - " ++ trimJS (removeFirstOcc tok (trimJS raw))) ∧
    (∀ s cap, findComplexityCapture (str "time complexity") timeLookahead s = some cap →
      (parseSolutionResponse s).time_complexity = formatComplexity cap) ∧
    (∀ s cap, findComplexityCapture (str "space complexity") spaceLookahead s = some cap →
      (parseSolutionResponse s).space_complexity = formatComplexity cap) := by
  refine ⟨?_, ?_, ?_, ?_⟩
  · intro h
    have he : formatComplexity raw = str "O(n) - " ++ trimJS raw := by
      unfold formatComplexity
      simp [h]
    refine ⟨he, ?_⟩
    rw [he]
    exact containsSub_of_isPrefixOf rfl
  · intro tok h1 h2 h3
    have hb : hasBigO (trimJS raw) = true := by simp [hasBigO, h3]
    unfold formatComplexity
    simp [hb, h1, h2, h3]
  · intro s cap h
    unfold parseSolutionResponse
    rw [h]
  · intro s cap h
    unfold parseSolutionResponse
    rw [h]

/-- C7 witness: the default-prefix branch at `"  fast  "`, the reformat
branch at `"O(n) quadratic"`, and the field linkage at concrete texts. -/
theorem c7_complexity_formatting_witness :
    (formatComplexity (str "  fast  ") = str "O(n) - " ++ trimJS (str "  fast  ") ∧
      containsSub (str "O(") (formatComplexity (str "  fast  ")) = true) ∧
    formatComplexity (str "O(n) quadratic")
      = str "O(n)" ++ str " - " ++ trimJS (removeFirstOcc (str "O(n)") (trimJS (str "O(n) quadratic"))) ∧
    (parseSolutionResponse (str "Time complexity: O(1)\nSpace complexity: O(1)")).time_complexity
      = formatComplexity (str "O(1)") ∧
    (parseSolutionResponse (str "Space complexity: O(1)\nDone")).space_complexity
      = formatComplexity (str "O(1)") :=
  ⟨(c7_complexity_formatting (str "  fast  ")).1 (by decide),
   (c7_complexity_formatting (str "O(n) quadratic")).2.1 (str "O(n)")
     (by decide) (by decide) (by decide),
   (c7_complexity_formatting []).2.2.1 (str "Time complexity: O(1)\nSpace complexity: O(1)")
     (str "O(1)") (by decide),
   (c7_complexity_formatting []).2.2.2 (str "Space complexity: O(1)\nDone")
     (str "O(1)") (by decide)⟩

/-- C8: the parsed thoughts list is never empty, and when nothing is
detected (no heading with a truthy span, or a span with no usable bullet
items and no non-empty lines) it is exactly the single default sentence. -/
theorem c8_thoughts_nonempty (s : List Char) :
    (parseSolutionResponse s).thoughts ≠ [] ∧
    (rationaleBase s = [] → (parseSolutionResponse s).thoughts = [defaultThought]) := by
  have he : (parseSolutionResponse s).thoughts = extractThoughts s := rfl
  rw [he]
  unfold extractThoughts
  constructor
  · by_cases h : (rationaleBase s).isEmpty
    · simp [h]
    · simp only [h, if_false]
      simpa [List.isEmpty_iff] using h
  · intro h
    simp [h]

/-- C8 witness: the empty text has no detectable rationale and yields the
single default sentence. -/
theorem c8_thoughts_nonempty_witness :
    (parseSolutionResponse []).thoughts ≠ [] ∧
    (parseSolutionResponse []).thoughts = [defaultThought] :=
  ⟨(c8_thoughts_nonempty []).1, (c8_thoughts_nonempty []).2 (by decide)⟩

/-- C5 counterexample: a vendor response with no candidates/choices/blocks
at all — its text content is certainly absent — makes each adapter throw
internally, surfacing the thrown message, not `"No response content"`. -/
theorem c5_counterexample :
    geminiExtract { candidates := [] } = .failure typeErrorMsg ∧
    openaiExtract { choices := [] } = .failure typeErrorMsg ∧
    anthropicExtract { content := [] } = .failure typeErrorMsg ∧
    CallResult.failure typeErrorMsg ≠ .failure (str "No response content") := by
  refine ⟨rfl, rfl, rfl, by decide⟩

/-- C5 (amended): when the first choice/candidate/block exists, a missing
or empty text field yields the `"No response content"` failure in all
three adapters; when the enclosing array is empty the adapters instead
surface the caught property-access error. -/
theorem c5_no_response_content :
    (∀ (m : OpenAIMessage) (rest : List OpenAIChoice),
      m.content = none ∨ m.content = some [] →
      openaiExtract { choices := ⟨m⟩ :: rest } = .failure (str "No response content")) ∧
    (∀ (p : GeminiPart) (ps : List GeminiPart) (cs : List GeminiCandidate),
      p.text = none ∨ p.text = some [] →
      geminiExtract { candidates := ⟨⟨p :: ps⟩⟩ :: cs } = .failure (str "No response content")) ∧
    (∀ (b : AnthropicBlock) (bs : List AnthropicBlock),
      b.text = none ∨ b.text = some [] →
      anthropicExtract { content := b :: bs } = .failure (str "No response content")) ∧
    openaiExtract { choices := [] } = .failure typeErrorMsg ∧
    geminiExtract { candidates := [] } = .failure typeErrorMsg ∧
    anthropicExtract { content := [] } = .failure typeErrorMsg := by
  refine ⟨?_, ?_, ?_, rfl, rfl, rfl⟩
  · intro m rest h
    rcases h with h | h <;> simp [openaiExtract, contentToResult, h]
  · intro p ps cs h
    rcases h with h | h <;> simp [geminiExtract, contentToResult, h]
  · intro b bs h
    rcases h with h | h <;> simp [anthropicExtract, contentToResult, h]

/-- C5 witness: concrete empty-text responses for all three adapters. -/
theorem c5_no_response_content_witness :
    openaiExtract { choices := [⟨⟨none⟩⟩] } = .failure (str "No response content") ∧
    geminiExtract { candidates := [⟨⟨[⟨some []⟩]⟩⟩] } = .failure (str "No response content") ∧
    anthropicExtract { content := [⟨none⟩] } = .failure (str "No response content") :=
  ⟨c5_no_response_content.1 ⟨none⟩ [] (Or.inl rfl),
   c5_no_response_content.2.1 ⟨some []⟩ [] [] (Or.inr rfl),
   c5_no_response_content.2.2.1 ⟨none⟩ [] (Or.inl rfl)⟩

/-- C6 counterexample: a successful debug run produces the complexity
constant `"N/A - Debug mode"`, not the claimed `"N/A"`. -/
theorem c6_counterexample :
    (processExtraScreenshotsHelper envBase stDebugW).2 = .ok (parseDebugResponse (str "y")) ∧
    (parseDebugResponse (str "y")).time_complexity ≠ str "N/A" ∧
    (parseDebugResponse (str "y")).space_complexity ≠ str "N/A" := by
  refine ⟨by decide, by decide, by decide⟩

/-- C6 (amended): every successful debug-stage payload carries the literal
`"N/A - Debug mode"` in both complexity fields. -/
theorem c6_debug_complexity_constant (env : Env) (st : AppState) (p : DebugPayload)
    (h : (processExtraScreenshotsHelper env st).2 = .ok p) :
    p.time_complexity = str "N/A - Debug mode" ∧
    p.space_complexity = str "N/A - Debug mode" := by
  unfold processExtraScreenshotsHelper at h
  split at h
  · simp at h
  · rcases hr : callAIModel env .debugging with ⟨a1, r⟩
    rw [hr] at h
    rcases r with content | e
    · simp only at h
      split at h
      · simp at h
      · simp only [HResult.ok.injEq] at h
        subst h
        exact ⟨rfl, rfl⟩
    · simp at h

/-- C6 witness: the amended statement at the concrete successful debug run. -/
theorem c6_debug_complexity_constant_witness :
    (parseDebugResponse (str "y")).time_complexity = str "N/A - Debug mode" ∧
    (parseDebugResponse (str "y")).space_complexity = str "N/A - Debug mode" :=
  c6_debug_complexity_constant envBase stDebugW (parseDebugResponse (str "y")) (by decide)

/-- C9: with no stored problem info the debug helper fails immediately with
`"No problem info available"` and performs no provider call; a successful
debug payload requires stored problem info. -/
theorem c9_debug_requires_problem_info (env : Env) (st : AppState) :
    (st.problemInfo = none →
      processExtraScreenshotsHelper env st = ([], .err (str "No problem info available")) ∧
      countNetworkCalls (processExtraScreenshotsHelper env st).1 = 0) ∧
    (∀ p, (processExtraScreenshotsHelper env st).2 = .ok p → st.problemInfo ≠ none) := by
  constructor
  · intro h
    have he : processExtraScreenshotsHelper env st
        = ([], .err (str "No problem info available")) := by
      unfold processExtraScreenshotsHelper
      rw [h]
    exact ⟨he, by rw [he]; rfl⟩
  · intro p h hn
    unfold processExtraScreenshotsHelper at h
    rw [hn] at h
    simp at h

/-- C9 witness: the no-info short circuit at a concrete state, and a
concrete successful debug run whose state indeed stores problem info. -/
theorem c9_debug_requires_problem_info_witness :
    processExtraScreenshotsHelper envBase stQueueW
      = ([], .err (str "No problem info available")) ∧
    countNetworkCalls (processExtraScreenshotsHelper envBase stQueueW).1 = 0 ∧
    stDebugW.problemInfo ≠ none :=
  ⟨((c9_debug_requires_problem_info envBase stQueueW).1 (by decide)).1,
   ((c9_debug_requires_problem_info envBase stQueueW).1 (by decide)).2,
   (c9_debug_requires_problem_info envBase stDebugW).2 (parseDebugResponse (str "y")) (by decide)⟩

/-- C1: cancellation always resets `hasDebugged` and clears the problem
info; `NO_SCREENSHOTS` is emitted at most once, never when both abort
handles were unset, and only when at least one handle was set (and hence
aborted). -/
theorem c1_cancel_behaviour (env : Env) (st : AppState) :
    (cancelOngoingRequests env st).2.hasDebugged = false ∧
    (cancelOngoingRequests env st).2.problemInfo = none ∧
    countNoScreenshots (cancelOngoingRequests env st).1 ≤ 1 ∧
    (st.mainAbort = false → st.extraAbort = false →
      countNoScreenshots (cancelOngoingRequests env st).1 = 0) ∧
    (1 ≤ countNoScreenshots (cancelOngoingRequests env st).1 →
      st.mainAbort = true ∨ st.extraAbort = true) := by
  cases hm : st.mainAbort <;> cases he : st.extraAbort <;>
    cases hw : env.windowAlive <;>
      simp [cancelOngoingRequests, countNoScreenshots, hm, he, hw, List.filter]

/-- C1 witness: with the main handle set one reset notification fires; with
both handles unset none fires; state fields are cleared in both cases. -/
theorem c1_cancel_behaviour_witness :
    (cancelOngoingRequests envBase stAbortW).2.hasDebugged = false ∧
    (cancelOngoingRequests envBase stAbortW).2.problemInfo = none ∧
    (stAbortW.mainAbort = true ∨ stAbortW.extraAbort = true) ∧
    countNoScreenshots (cancelOngoingRequests envBase stQueueW).1 = 0 :=
  ⟨(c1_cancel_behaviour envBase stAbortW).1,
   (c1_cancel_behaviour envBase stAbortW).2.1,
   (c1_cancel_behaviour envBase stAbortW).2.2.2.2 (by decide),
   (c1_cancel_behaviour envBase stQueueW).2.2.2.1 (by decide) (by decide)⟩

/-- C3: when the queue relevant to the current view has no existing file
(empty, or every listed file fails the existence check), the flow emits
`NO_SCREENSHOTS` and performs no provider call. -/
theorem c3_no_screenshots_short_circuit (env : Env) (st : AppState)
    (hw : env.windowAlive = true) (hc : env.clientValid = true)
    (hq : ((match st.view with
            | .queue => st.screenshotQueue
            | .solutions => st.extraScreenshotQueue).filter env.fileExists) = []) :
    Action.emit .noScreenshots ∈ (processScreenshots env st).1 ∧
    countNetworkCalls (processScreenshots env st).1 = 0 := by
  cases hv : st.view <;> rw [hv] at hq
  · by_cases hqe : st.screenshotQueue.isEmpty <;>
      simp [processScreenshots, hv, hw, hc, hqe, hq, sendActs,
        countNetworkCalls, List.filter]
  · by_cases hqe : st.extraScreenshotQueue.isEmpty <;>
      simp [processScreenshots, hv, hw, hc, hqe, hq, sendActs,
        countNetworkCalls, List.filter]

/-- C3 witness: both views at a concrete state whose files all fail the
existence check. -/
theorem c3_no_screenshots_short_circuit_witness :
    (Action.emit .noScreenshots ∈ (processScreenshots envNoFiles stQueueW).1 ∧
      countNetworkCalls (processScreenshots envNoFiles stQueueW).1 = 0) ∧
    (Action.emit .noScreenshots ∈ (processScreenshots envNoFiles stDebugW).1 ∧
      countNetworkCalls (processScreenshots envNoFiles stDebugW).1 = 0) :=
  ⟨c3_no_screenshots_short_circuit envNoFiles stQueueW rfl rfl (by decide),
   c3_no_screenshots_short_circuit envNoFiles stDebugW rfl rfl (by decide)⟩

/-- The trace of one `callAIModel` round trip contains no renderer event
(only a status notification and the network call). -/
theorem emit_notin_callAIModel (env : Env) (stage : Stage) (a : List Action)
    (r : CallResult) (e : PEvent) (h : callAIModel env stage = (a, r)) :
    Action.emit e ∉ a := by
  unfold callAIModel at h
  split at h <;>
    (cases stage <;> simp only [stageStatus, statusActs] at h <;> split_ifs at h <;>
      (simp only [Prod.mk.injEq] at h; obtain ⟨rfl, -⟩ := h; simp))

/-- The solution helper emits no renderer event of its own. -/
theorem emit_notin_generateSolutions (env : Env) (st : AppState) (a : List Action)
    (r : HResult SolutionPayload) (e : PEvent)
    (h : generateSolutionsHelper env st = (a, r)) :
    Action.emit e ∉ a := by
  unfold generateSolutionsHelper at h
  split at h
  · simp only [Prod.mk.injEq] at h
    obtain ⟨rfl, -⟩ := h
    simp
  · rcases hc : callAIModel env .solution with ⟨a1, r1⟩
    rw [hc] at h
    have hna := emit_notin_callAIModel env .solution a1 r1 e hc
    rcases r1 with content | err
    · simp only at h
      split at h <;>
        (simp only [Prod.mk.injEq] at h; obtain ⟨rfl, -⟩ := h; exact hna)
    · simp only [Prod.mk.injEq] at h
      obtain ⟨rfl, -⟩ := h
      exact hna

/-- The extraction/solution helper never emits the two failure events:
failure classification happens only in the outer flow. -/
theorem helper_no_classifier_events (env : Env) (st : AppState) (a : List Action)
    (stH : AppState) (r : HResult SolutionPayload)
    (h : processScreenshotsHelper env st = (a, stH, r)) :
    Action.emit PEvent.apiKeyInvalid ∉ a ∧
    ∀ m, Action.emit (PEvent.initialSolutionError m) ∉ a := by
  unfold processScreenshotsHelper at h
  rcases hc : callAIModel env .extraction with ⟨a1, r1⟩
  rw [hc] at h
  have hna := fun e => emit_notin_callAIModel env .extraction a1 r1 e hc
  rcases r1 with content | err
  · simp only at h
    split at h
    · simp only [Prod.mk.injEq] at h
      obtain ⟨rfl, -⟩ := h
      exact ⟨hna _, fun m => hna _⟩
    · rename_i info _
      split at h
      · rcases hg : generateSolutionsHelper env { st with problemInfo := some info }
          with ⟨a4, r2⟩
        rw [hg] at h
        have hng := fun e =>
          emit_notin_generateSolutions env { st with problemInfo := some info } a4 r2 e hg
        rcases r2 with payload | err2
        · simp only [Prod.mk.injEq] at h
          obtain ⟨rfl, -⟩ := h
          refine ⟨?_, fun m => ?_⟩ <;>
            simp [statusActs, hna _, hng _, List.mem_append]
        · simp only [Prod.mk.injEq] at h
          obtain ⟨rfl, -⟩ := h
          refine ⟨?_, fun m => ?_⟩ <;>
            simp [statusActs, List.mem_append, hna _, hng _]
      · simp only [Prod.mk.injEq] at h
        obtain ⟨rfl, -⟩ := h
        refine ⟨?_, fun m => ?_⟩ <;>
          simp [statusActs, List.mem_append, hna _]
  · simp only [Prod.mk.injEq] at h
    obtain ⟨rfl, -⟩ := h
    exact ⟨hna _, fun m => hna _⟩

/-- C4 counterexample: a main-flow failure naming Anthropic — the third
provider — is reported as a generic `INITIAL_SOLUTION_ERROR`, not as
`API_KEY_INVALID`, refuting the claim's "any of the three providers". -/
theorem c4_counterexample :
    containsSub (str "Anthropic") (str "Anthropic API error") = true ∧
    Action.emit (.initialSolutionError (str "Anthropic API error"))
      ∈ (processScreenshots envAnthropicErr stQueueW).1 ∧
    Action.emit .apiKeyInvalid ∉ (processScreenshots envAnthropicErr stQueueW).1 := by
  refine ⟨by decide, by decide, by decide⟩

/-- C4 (amended): a main-flow failure whose message contains `"API Key"`,
`"OpenAI"` or `"Gemini"` (but not other provider names, such as
`"Anthropic"`) is reported as `API_KEY_INVALID` instead of the generic
error event, any other failure as `INITIAL_SOLUTION_ERROR`, and in either
case the view is reset to the queue view. -/
theorem c4_error_classification (env : Env) (st : AppState) (e : List Char)
    (hw : env.windowAlive = true) (hc : env.clientValid = true) (hv : st.view = .queue)
    (hval : (st.screenshotQueue.filter env.fileExists).filter env.readOk ≠ [])
    (hr : (processScreenshotsHelper env { st with mainAbort := true }).2.2 = .err e) :
    (looksLikeApiKeyError e = true →
      Action.emit .apiKeyInvalid ∈ (processScreenshots env st).1 ∧
      ∀ m, Action.emit (.initialSolutionError m) ∉ (processScreenshots env st).1) ∧
    (looksLikeApiKeyError e = false →
      Action.emit (.initialSolutionError e) ∈ (processScreenshots env st).1 ∧
      Action.emit .apiKeyInvalid ∉ (processScreenshots env st).1) ∧
    (processScreenshots env st).2.view = .queue := by
  obtain ⟨v, pi, hd, q, eq2, ma, ea⟩ := st
  simp only at hv hval hr ⊢
  subst hv
  have hex : q.filter env.fileExists ≠ [] := by
    intro h
    rw [h] at hval
    exact hval rfl
  have hqn : q ≠ [] := by
    intro h
    rw [h] at hex
    exact hex rfl
  have hqe : q.isEmpty = false := by
    simpa [List.isEmpty_iff] using hqn
  have hexe : (q.filter env.fileExists).isEmpty = false := by
    simpa [List.isEmpty_iff] using hex
  have hvale : ((q.filter env.fileExists).filter env.readOk).isEmpty = false := by
    simpa [List.isEmpty_iff] using hval
  rcases hh : processScreenshotsHelper env ⟨.queue, pi, hd, q, eq2, true, ea⟩ with ⟨aH, stH, r⟩
  rw [hh] at hr
  simp only at hr
  subst hr
  have hnc := helper_no_classifier_events env ⟨.queue, pi, hd, q, eq2, true, ea⟩ aH stH _ hh
  simp only [processScreenshots, hw, hc, hqe, hexe, hvale, hh, sendActs,
    Bool.not_true, if_false, if_true]
  refine ⟨?_, ?_, rfl⟩
  · intro hk
    rw [hk]
    refine ⟨by simp, fun m => ?_⟩
    simp [List.mem_append, hnc.2 m]
  · intro hk
    rw [hk]
    refine ⟨by simp, ?_⟩
    simp [List.mem_append, hnc.1]

/-- C4 witness: the two classification branches at concrete failing runs
(an OpenAI-named failure reclassified, an Anthropic-named one not). -/
theorem c4_error_classification_witness :
    (Action.emit .apiKeyInvalid ∈ (processScreenshots envOpenaiErr stQueueW).1 ∧
      ∀ m, Action.emit (.initialSolutionError m) ∉ (processScreenshots envOpenaiErr stQueueW).1) ∧
    (Action.emit (.initialSolutionError (str "Anthropic API error"))
        ∈ (processScreenshots envAnthropicErr stQueueW).1 ∧
      Action.emit .apiKeyInvalid ∉ (processScreenshots envAnthropicErr stQueueW).1) ∧
    (processScreenshots envOpenaiErr stQueueW).2.view = .queue ∧
    (processScreenshots envAnthropicErr stQueueW).2.view = .queue :=
  ⟨(c4_error_classification envOpenaiErr stQueueW (str "Invalid OpenAI API key")
      rfl rfl rfl (by decide) (by decide)).1 (by decide),
   (c4_error_classification envAnthropicErr stQueueW (str "Anthropic API error")
      rfl rfl rfl (by decide) (by decide)).2.1 (by decide),
   (c4_error_classification envOpenaiErr stQueueW (str "Invalid OpenAI API key")
      rfl rfl rfl (by decide) (by decide)).2.2,
   (c4_error_classification envAnthropicErr stQueueW (str "Anthropic API error")
      rfl rfl rfl (by decide) (by decide)).2.2⟩

/-- C10: on a fully successful main-queue flow the `SOLUTION_SUCCESS` event
is emitted exactly twice with the same payload — once from inside the
helper right after the extra queue is cleared, once from the outer flow
immediately before the view switches to the solutions view — as the full
trace shows. -/
theorem c10_solution_success_twice (env : Env) (st : AppState)
    (c sol : List Char) (info : ProblemInfo)
    (hw : env.windowAlive = true) (hc : env.clientValid = true) (hv : st.view = .queue)
    (hval : (st.screenshotQueue.filter env.fileExists).filter env.readOk ≠ [])
    (hx : env.extractionOutcome = .success c)
    (hj : env.jsonParse (trimJS (stripJsonFences c.length c)) = some info)
    (hs : env.solutionOutcome = .success sol) (hsne : sol ≠ []) :
    (processScreenshots env st).1 =
      [Action.emit .initialStart,
       Action.status (str "Analyzing problem from screenshots...") 20,
       Action.networkCall,
       Action.status (str "Problem analyzed successfully. Preparing to generate solution...") 40,
       Action.setProblemInfo (some info),
       Action.emit (.problemExtracted info),
       Action.status (str "Creating optimal solution with detailed explanations...") 60,
       Action.networkCall,
       Action.clearExtraQueue,
       Action.status (str "Solution generated successfully") 100,
       Action.emit (.solutionSuccess (parseSolutionResponse sol)),
       Action.emit (.solutionSuccess (parseSolutionResponse sol)),
       Action.setView .solutions] ∧
    countSolutionSuccess (processScreenshots env st).1 = 2 ∧
    (processScreenshots env st).2.view = .solutions ∧
    (processScreenshots env st).2.extraScreenshotQueue = [] := by
  obtain ⟨v, pi, hd, q, eq2, ma, ea⟩ := st
  simp only at hv hval ⊢
  subst hv
  have hex : q.filter env.fileExists ≠ [] := by
    intro h
    rw [h] at hval
    exact hval rfl
  have hqn : q ≠ [] := by
    intro h
    rw [h] at hex
    exact hex rfl
  have hqe : q.isEmpty = false := by
    simpa [List.isEmpty_iff] using hqn
  have hexe : (q.filter env.fileExists).isEmpty = false := by
    simpa [List.isEmpty_iff] using hex
  have hvale : ((q.filter env.fileExists).filter env.readOk).isEmpty = false := by
    simpa [List.isEmpty_iff] using hval
  have hsol : sol.isEmpty = false := by
    cases sol
    · exact absurd rfl hsne
    · rfl
  have hmain : processScreenshots env ⟨.queue, pi, hd, q, eq2, ma, ea⟩ =
      ([Action.emit .initialStart,
        Action.status (str "Analyzing problem from screenshots...") 20,
        Action.networkCall,
        Action.status (str "Problem analyzed successfully. Preparing to generate solution...") 40,
        Action.setProblemInfo (some info),
        Action.emit (.problemExtracted info),
        Action.status (str "Creating optimal solution with detailed explanations...") 60,
        Action.networkCall,
        Action.clearExtraQueue,
        Action.status (str "Solution generated successfully") 100,
        Action.emit (.solutionSuccess (parseSolutionResponse sol)),
        Action.emit (.solutionSuccess (parseSolutionResponse sol)),
        Action.setView .solutions],
       ⟨.solutions, some info, hd, q, [], false, ea⟩) := by
    simp only [processScreenshots, processScreenshotsHelper, generateSolutionsHelper,
      callAIModel, stageStatus, statusActs, sendActs, stageOutcome,
      hw, hc, hqe, hexe, hvale, hx, hj, hs, hsol,
      Bool.not_true, if_false, if_true, Bool.false_eq_true, ite_false, ite_true]
    simp [hj]
  rw [hmain]
  refine ⟨rfl, ?_, rfl, rfl⟩
  simp [countSolutionSuccess, List.filter]

/-- C10 witness: the Two Sum scenario environment runs the full successful
main flow with exactly two same-payload success emissions. -/
theorem c10_solution_success_twice_witness :
    countSolutionSuccess (processScreenshots envBase stQueueW).1 = 2 ∧
    (processScreenshots envBase stQueueW).2.view = .solutions ∧
    (processScreenshots envBase stQueueW).2.extraScreenshotQueue = [] :=
  (c10_solution_success_twice envBase stQueueW (str "```json\x7b\x7d```") (str "x") piW
    rfl rfl rfl (by decide) rfl (by decide) rfl (by decide)).2

end InterviewCoder
